import Mathlib

/-
Verification of the TL50 tower-light driver specification against
`Tl50UsbInterface.h` (Banner Engineering TL50 Pro, native interface header).

The header declares the command vocabulary (C enums with fixed integer
values), the `CommReturnValue` result codes, the documented 24-bit bitfield
layout of `SetSegmentAdvanced`, and the `Init`/`Deinit` lifecycle.  The
codec, frame builder and session implementations live behind the DLL, so
those parts are modelled from the specification; the enum tables and result
codes are embedded verbatim from the header.
-/

namespace TL50

/-- The available colors for indication (`enum Color` in the header). -/
inductive Color
| GREEN | RED | ORANGE | AMBER | YELLOW | LIME_GREEN | SPRING_GREEN | CYAN
| SKY_BLUE | BLUE | VIOLET | MAGENTA | ROSE | WHITE
| CUSTOM_COLOR_1 | CUSTOM_COLOR_2
deriving DecidableEq, Repr

/-- The numeric value each `Color` enumerator is assigned in the header. -/
def Color.toNat : Color → Nat
| .GREEN => 0
| .RED => 1
| .ORANGE => 2
| .AMBER => 3
| .YELLOW => 4
| .LIME_GREEN => 5
| .SPRING_GREEN => 6
| .CYAN => 7
| .SKY_BLUE => 8
| .BLUE => 9
| .VIOLET => 10
| .MAGENTA => 11
| .ROSE => 12
| .WHITE => 13
| .CUSTOM_COLOR_1 => 14
| .CUSTOM_COLOR_2 => 15

/-- The styles of indication available for individual segments
(`enum SegmentAnimation` in the header). -/
inductive SegmentAnimation
| SEGMENT_OFF | SEGMENT_STEADY | SEGMENT_FLASH | SEGMENT_TWO_COLOR_FLASH
| SEGMENT_HALF_HALF | SEGMENT_HALF_HALF_ROTATE | SEGMENT_CHASE
| SEGMENT_INTENSITY_SWEEP
deriving DecidableEq, Repr

/-- The numeric value each `SegmentAnimation` enumerator is assigned in the header. -/
def SegmentAnimation.toNat : SegmentAnimation → Nat
| .SEGMENT_OFF => 0
| .SEGMENT_STEADY => 1
| .SEGMENT_FLASH => 2
| .SEGMENT_TWO_COLOR_FLASH => 3
| .SEGMENT_HALF_HALF => 4
| .SEGMENT_HALF_HALF_ROTATE => 5
| .SEGMENT_CHASE => 6
| .SEGMENT_INTENSITY_SWEEP => 7

/-- The brightness of indication (`enum Intensity` in the header). -/
inductive Intensity
| INTENSITY_HIGH | INTENSITY_LOW | INTENSITY_MEDIUM | INTENSITY_OFF
| INTENSITY_CUSTOM
deriving DecidableEq, Repr

/-- The numeric value each `Intensity` enumerator is assigned in the header. -/
def Intensity.toNat : Intensity → Nat
| .INTENSITY_HIGH => 0
| .INTENSITY_LOW => 1
| .INTENSITY_MEDIUM => 2
| .INTENSITY_OFF => 3
| .INTENSITY_CUSTOM => 4

/-- For dynamic animations, the pace that the animation progresses
(`enum Speed` in the header). -/
inductive Speed
| SPEED_STANDARD | SPEED_FAST | SPEED_SLOW | SPEED_CUSTOM
deriving DecidableEq, Repr

/-- The numeric value each `Speed` enumerator is assigned in the header. -/
def Speed.toNat : Speed → Nat
| .SPEED_STANDARD => 0
| .SPEED_FAST => 1
| .SPEED_SLOW => 2
| .SPEED_CUSTOM => 3

/-- For flashing animations, the manner in which the flashing happens
(`enum FlashPattern` in the header). -/
inductive FlashPattern
| FLASH_NORMAL | FLASH_STROBE | FLASH_THREE_PULSE | FLASH_SOS | FLASH_RANDOM
deriving DecidableEq, Repr

/-- The numeric value each `FlashPattern` enumerator is assigned in the header. -/
def FlashPattern.toNat : FlashPattern → Nat
| .FLASH_NORMAL => 0
| .FLASH_STROBE => 1
| .FLASH_THREE_PULSE => 2
| .FLASH_SOS => 3
| .FLASH_RANDOM => 4

/-- For dynamic animations, the direction that the animation progresses
(`enum RotationalDirection` in the header). -/
inductive RotationalDirection
| DIRECTION_COUNTERCLOCKWISE | DIRECTION_CLOCKWISE
deriving DecidableEq, Repr

/-- The numeric value each `RotationalDirection` enumerator is assigned in the header. -/
def RotationalDirection.toNat : RotationalDirection → Nat
| .DIRECTION_COUNTERCLOCKWISE => 0
| .DIRECTION_CLOCKWISE => 1

/-- The pattern of sound from the audible segment (`enum Audible` in the header). -/
inductive Audible
| AUDIBLE_OFF | AUDIBLE_STEADY | AUDIBLE_PULSED | AUDIBLE_SOS
deriving DecidableEq, Repr

/-- The numeric value each `Audible` enumerator is assigned in the header. -/
def Audible.toNat : Audible → Nat
| .AUDIBLE_OFF => 0
| .AUDIBLE_STEADY => 1
| .AUDIBLE_PULSED => 2
| .AUDIBLE_SOS => 3

/-- C8: the numeric encodings of the command-vocabulary enumerations equal the
header's assignments verbatim: Color 0-15 (GREEN=0 through CUSTOM_COLOR_2=15),
SegmentAnimation 0-7, Intensity 0-4, Speed 0-3, FlashPattern 0-4,
RotationalDirection 0-1 and Audible 0-3. -/
theorem enum_values_match_header :
    Color.toNat .GREEN = 0 ∧ Color.toNat .RED = 1 ∧ Color.toNat .ORANGE = 2 ∧
    Color.toNat .AMBER = 3 ∧ Color.toNat .YELLOW = 4 ∧
    Color.toNat .LIME_GREEN = 5 ∧ Color.toNat .SPRING_GREEN = 6 ∧
    Color.toNat .CYAN = 7 ∧ Color.toNat .SKY_BLUE = 8 ∧ Color.toNat .BLUE = 9 ∧
    Color.toNat .VIOLET = 10 ∧ Color.toNat .MAGENTA = 11 ∧
    Color.toNat .ROSE = 12 ∧ Color.toNat .WHITE = 13 ∧
    Color.toNat .CUSTOM_COLOR_1 = 14 ∧ Color.toNat .CUSTOM_COLOR_2 = 15 ∧
    SegmentAnimation.toNat .SEGMENT_OFF = 0 ∧
    SegmentAnimation.toNat .SEGMENT_STEADY = 1 ∧
    SegmentAnimation.toNat .SEGMENT_FLASH = 2 ∧
    SegmentAnimation.toNat .SEGMENT_TWO_COLOR_FLASH = 3 ∧
    SegmentAnimation.toNat .SEGMENT_HALF_HALF = 4 ∧
    SegmentAnimation.toNat .SEGMENT_HALF_HALF_ROTATE = 5 ∧
    SegmentAnimation.toNat .SEGMENT_CHASE = 6 ∧
    SegmentAnimation.toNat .SEGMENT_INTENSITY_SWEEP = 7 ∧
    Intensity.toNat .INTENSITY_HIGH = 0 ∧ Intensity.toNat .INTENSITY_LOW = 1 ∧
    Intensity.toNat .INTENSITY_MEDIUM = 2 ∧ Intensity.toNat .INTENSITY_OFF = 3 ∧
    Intensity.toNat .INTENSITY_CUSTOM = 4 ∧
    Speed.toNat .SPEED_STANDARD = 0 ∧ Speed.toNat .SPEED_FAST = 1 ∧
    Speed.toNat .SPEED_SLOW = 2 ∧ Speed.toNat .SPEED_CUSTOM = 3 ∧
    FlashPattern.toNat .FLASH_NORMAL = 0 ∧ FlashPattern.toNat .FLASH_STROBE = 1 ∧
    FlashPattern.toNat .FLASH_THREE_PULSE = 2 ∧ FlashPattern.toNat .FLASH_SOS = 3 ∧
    FlashPattern.toNat .FLASH_RANDOM = 4 ∧
    RotationalDirection.toNat .DIRECTION_COUNTERCLOCKWISE = 0 ∧
    RotationalDirection.toNat .DIRECTION_CLOCKWISE = 1 ∧
    Audible.toNat .AUDIBLE_OFF = 0 ∧ Audible.toNat .AUDIBLE_STEADY = 1 ∧
    Audible.toNat .AUDIBLE_PULSED = 2 ∧ Audible.toNat .AUDIBLE_SOS = 3 := by
  decide

/-- A structured per-segment command, spec §3.  Field values are kept as raw
numerals, matching the wire view used by `SetSegmentAdvanced`'s byte buffer;
validity restricts each field to its declared enum range. -/
structure SegmentCommand where
  segmentIndex : Nat
  color1 : Nat
  intensity1 : Nat
  animation : Nat
  speed : Nat
  flashPattern : Nat
  color2 : Nat
  intensity2 : Nat
  direction : Nat
deriving DecidableEq, Repr

/-- A `SegmentCommand` is valid when the segment index is 0-9 and every field
lies in its declared enum range (Color 0-15, Intensity 0-4, SegmentAnimation
0-7, Speed 0-3, FlashPattern 0-4, RotationalDirection 0-1). -/
def SegmentCommand.Valid (c : SegmentCommand) : Prop :=
  c.segmentIndex ≤ 9 ∧ c.color1 ≤ 15 ∧ c.intensity1 ≤ 4 ∧ c.animation ≤ 7 ∧
  c.speed ≤ 3 ∧ c.flashPattern ≤ 4 ∧ c.color2 ≤ 15 ∧ c.intensity2 ≤ 4 ∧
  c.direction ≤ 1

instance (c : SegmentCommand) : Decidable c.Valid := by
  unfold SegmentCommand.Valid
  infer_instance

/-- Modelled from the spec: the codec implementation is absent from the
repository (the header only documents the 24-bit layout in
`SetSegmentAdvanced`'s remarks).  `packSegment` places each field at its
documented bit offset: Color1 at 0 (width 4), Intensity1 at 4 (width 3),
reserved 0 at 7, Animation at 8 (width 3), Speed at 11 (width 2),
FlashPattern at 13 (width 3), Color2 at 16 (width 4), Intensity2 at 20
(width 3), RotationalDirection at 23 (width 1). -/
def packSegment (c : SegmentCommand) : Nat :=
  c.color1 + c.intensity1 * 16 + c.animation * 256 + c.speed * 2048 +
  c.flashPattern * 8192 + c.color2 * 65536 + c.intensity2 * 1048576 +
  c.direction * 8388608

/-- Modelled from the spec: encode a `SegmentCommand` into the 3-byte buffer
passed to `SetSegmentAdvanced`, least-significant byte first; an out-of-range
field is rejected before transmission (spec §4.1) rather than truncated. -/
def encodeSegment (c : SegmentCommand) : Option (List Nat) :=
  if c.Valid then
    some [packSegment c % 256, packSegment c / 256 % 256,
          packSegment c / 65536 % 256]
  else none

/-- Modelled from the spec: decode a 3-byte buffer (plus the separately
transmitted segment index) back into a `SegmentCommand`, reading each field at
its documented bit offset; the reserved bit at offset 7 is read but
discarded. -/
def decodeSegment (seg : Nat) (bs : List Nat) : SegmentCommand :=
  { segmentIndex := seg
    color1 := bs.getD 0 0 % 16
    intensity1 := bs.getD 0 0 / 16 % 8
    animation := bs.getD 1 0 % 8
    speed := bs.getD 1 0 / 8 % 4
    flashPattern := bs.getD 1 0 / 32 % 8
    color2 := bs.getD 2 0 % 16
    intensity2 := bs.getD 2 0 / 16 % 8
    direction := bs.getD 2 0 / 128 % 2 }

/-- Flip the bit at offset `k` of the byte value `b`. -/
def flipBit (b k : Nat) : Nat :=
  if b / 2 ^ k % 2 = 1 then b - 2 ^ k else b + 2 ^ k

theorem ge_of_bit_set (b k : Nat) (h : b / 2 ^ k % 2 = 1) : 2 ^ k ≤ b := by
  by_contra hlt
  push_neg at hlt
  rw [Nat.div_eq_of_lt hlt] at h
  simp at h

/-- C1: for every valid `SegmentCommand` (segment index 0-9 and every enum
field within its declared range), decoding the 3-byte encoding yields the same
command back: `decode (encode c) = c` over the fixed 24-bit layout. -/
theorem decode_encode_roundtrip (c : SegmentCommand) (h : c.Valid) :
    ∀ bs, encodeSegment c = some bs → decodeSegment c.segmentIndex bs = c := by
  intro bs hbs
  rw [encodeSegment, if_pos h] at hbs
  obtain ⟨h1, h2, h3, h4, h5, h6, h7, h8, h9⟩ := h
  cases hbs
  obtain ⟨seg, x1, x2, x3, x4, x5, x6, x7, x8⟩ := c
  dsimp only at h1 h2 h3 h4 h5 h6 h7 h8 h9
  simp only [decodeSegment, packSegment, List.getD_cons_zero,
    List.getD_cons_succ, SegmentCommand.mk.injEq, true_and, and_true]
  omega

/-- C1 witness: the round trip evaluated at a concrete valid command. -/
theorem decode_encode_roundtrip_witness :
    decodeSegment 3 [37, 1, 183] =
      SegmentCommand.mk 3 5 2 1 0 0 7 3 1 :=
  decode_encode_roundtrip (SegmentCommand.mk 3 5 2 1 0 0 7 3 1)
    (by decide) [37, 1, 183] (by decide)

/-- C5: encoding a valid `SegmentCommand` produces exactly 3 bytes, and
encoding a command with any field outside its declared range fails fast
(returns no bytes at all), never silently truncating. -/
theorem encode_three_bytes_or_reject (c : SegmentCommand) :
    (c.Valid → ∃ bs, encodeSegment c = some bs ∧ bs.length = 3) ∧
    (¬c.Valid → encodeSegment c = none) := by
  constructor
  · intro hv
    refine ⟨[packSegment c % 256, packSegment c / 256 % 256,
             packSegment c / 65536 % 256], ?_, rfl⟩
    rw [encodeSegment, if_pos hv]
  · intro hv
    rw [encodeSegment, if_neg hv]

/-- C5 witness: a valid command encodes to 3 bytes; a command with Color 16
(outside the 4-bit range) is rejected. -/
theorem encode_three_bytes_or_reject_witness :
    (∃ bs, encodeSegment (SegmentCommand.mk 0 0 0 0 0 0 0 0 0) = some bs ∧
      bs.length = 3) ∧
    encodeSegment (SegmentCommand.mk 0 16 0 0 0 0 0 0 0) = none :=
  ⟨(encode_three_bytes_or_reject (SegmentCommand.mk 0 0 0 0 0 0 0 0 0)).1
      (by decide),
   (encode_three_bytes_or_reject (SegmentCommand.mk 0 16 0 0 0 0 0 0 0)).2
      (by decide)⟩

/-- C9: the decoder discards the reserved bit at offset 7 — flipping it in the
byte buffer never changes the decoded `SegmentCommand` — and for every valid
command the encoder writes 0 at that bit. -/
theorem reserved_bit_ignored (seg b0 b1 b2 : Nat) :
    decodeSegment seg [flipBit b0 7, b1, b2] = decodeSegment seg [b0, b1, b2] ∧
    ∀ c : SegmentCommand, c.Valid → ∀ bs, encodeSegment c = some bs →
      bs.getD 0 0 / 128 % 2 = 0 := by
  constructor
  · have hp : (2 : Nat) ^ 7 = 128 := by norm_num
    have hcases : (128 ≤ b0 ∧ flipBit b0 7 = b0 - 128) ∨ flipBit b0 7 = b0 + 128 := by
      unfold flipBit
      split
      · left
        refine ⟨?_, by rw [hp]⟩
        have := ge_of_bit_set b0 7 (by assumption)
        omega
      · right
        rw [hp]
    simp only [decodeSegment, List.getD_cons_zero, List.getD_cons_succ,
      SegmentCommand.mk.injEq, true_and, and_true]
    rcases hcases with ⟨hle, heq⟩ | heq <;> rw [heq] <;> omega
  · intro c hc bs hbs
    rw [encodeSegment, if_pos hc] at hbs
    obtain ⟨h1, h2, h3, h4, h5, h6, h7, h8, h9⟩ := hc
    cases hbs
    obtain ⟨cseg, x1, x2, x3, x4, x5, x6, x7, x8⟩ := c
    dsimp only at h1 h2 h3 h4 h5 h6 h7 h8 h9
    simp only [packSegment, List.getD_cons_zero]
    omega

/-- C9 witness: flipping the reserved bit of a concrete byte triplet leaves
the decoded command unchanged, and a concrete valid command encodes with a 0
reserved bit. -/
theorem reserved_bit_ignored_witness :
    (decodeSegment 0 [flipBit 37 7, 1, 183] = decodeSegment 0 [37, 1, 183]) ∧
    List.getD [37, 1, 183] 0 0 / 128 % 2 = 0 :=
  ⟨(reserved_bit_ignored 0 37 1 183).1,
   (reserved_bit_ignored 0 37 1 183).2 (SegmentCommand.mk 3 5 2 1 0 0 7 3 1)
      (by decide) [37, 1, 183] (by decide)⟩

/-- The flat, tagged outcome of one communication attempt (spec §3
`CommResult`); each tag corresponds to one `CommReturnValue` code of the
header. -/
inductive CommResult
| Success | PortNotFound | PortOpenFailed | WriteFailed | ReadFailed
| ChecksumMismatch | Nacked | NotInitialized
deriving DecidableEq, Repr

/-- Modelled from the spec: the frame builder's checksum implementation is
absent from the repository (the header only exposes `FAILED_CHECKSUM`); the
spec leaves the algorithm to the implementer, naming the additive checksum as
a worked example, so the additive sum modulo 256 is used here. -/
def checksum (p : List Nat) : Nat := p.sum % 256

/-- Modelled from the spec: a frame is the payload followed by its checksum
trailer byte. -/
def frame (p : List Nat) : List Nat := p ++ [checksum p]

/-- Modelled from the spec: verification recomputes the checksum over the
bytes before the trailer and compares it with the trailer byte, identically to
the encode path. -/
def verifyChecksum (f : List Nat) : Bool :=
  f.dropLast.sum % 256 == f.getLastD 0

/-- The ASCII ACK status byte used by the modelled response frames. -/
def ackStatus : Nat := 6

/-- The status byte of a response frame (its first byte). -/
def statusByte (f : List Nat) : Nat := f.getD 0 0

/-- Modelled from the spec: the session validates the response checksum before
inspecting the status field; a mismatch maps to `ChecksumMismatch`, an ACK
status to `Success` and any other status to `Nacked`. -/
def classifyResponse (f : List Nat) : CommResult :=
  if verifyChecksum f then
    if statusByte f = ackStatus then CommResult.Success else CommResult.Nacked
  else CommResult.ChecksumMismatch

/-- Single-bit corruption of a frame: flip bit `k` of the byte at index `i`. -/
def flipFrameBit (f : List Nat) (i k : Nat) : List Nat :=
  f.set i (flipBit (f.getD i 0) k)

theorem two_pow_lt_byte (k : Nat) (hk : k < 8) : 0 < 2 ^ k ∧ 2 ^ k ≤ 128 := by
  refine ⟨Nat.two_pow_pos k, ?_⟩
  calc (2 : Nat) ^ k ≤ 2 ^ 7 := Nat.pow_le_pow_right (by norm_num) (by omega)
  _ = 128 := by norm_num

theorem sum_flip_at (p : List Nat) (i k : Nat) (hi : i < p.length) :
    (p.set i (flipBit (p.getD i 0) k)).sum + 2 ^ k = p.sum ∨
    (p.set i (flipBit (p.getD i 0) k)).sum = p.sum + 2 ^ k := by
  have hdec : p.sum = (p.take i).sum + p.getD i 0 + (p.drop (i + 1)).sum := by
    conv_lhs => rw [← List.take_append_drop i p]
    rw [List.sum_append, List.drop_eq_getElem_cons hi, List.sum_cons,
      List.getD_eq_getElem?_getD, List.getElem?_eq_getElem hi, Option.getD_some]
    omega
  have hsum := List.sum_set p i (flipBit (p.getD i 0) k)
  rw [if_pos hi] at hsum
  by_cases hbit : p.getD i 0 / 2 ^ k % 2 = 1
  · left
    have hge := ge_of_bit_set _ k hbit
    rw [flipBit, if_pos hbit] at hsum ⊢
    omega
  · right
    rw [flipBit, if_neg hbit] at hsum ⊢
    omega

/-- C2: every frame built from a payload passes checksum verification;
flipping any single bit of such a frame makes verification fail, and the
session maps that failure to `ChecksumMismatch` instead of accepting the
corrupted frame. -/
theorem frame_checksum_detects_bit_flip (p : List Nat) :
    verifyChecksum (frame p) = true ∧
    ∀ i k, i < (frame p).length → k < 8 →
      verifyChecksum (flipFrameBit (frame p) i k) = false ∧
      classifyResponse (flipFrameBit (frame p) i k) =
        CommResult.ChecksumMismatch := by
  have hlen : (frame p).length = p.length + 1 := by
    simp [frame]
  constructor
  · rw [verifyChecksum, frame, List.dropLast_concat, List.getLastD_concat,
      checksum]
    exact beq_self_eq_true _
  · intro i k hi hk
    obtain ⟨hpos, hle⟩ := two_pow_lt_byte k hk
    have hver : verifyChecksum (flipFrameBit (frame p) i k) = false := by
      rcases Nat.lt_or_ge i p.length with hip | hip
      · have hset : flipFrameBit (frame p) i k
            = p.set i (flipBit (p.getD i 0) k) ++ [checksum p] := by
          rw [flipFrameBit, frame, List.getD_append _ _ _ i hip,
            List.set_append, if_pos hip]
        rw [hset, verifyChecksum, List.dropLast_concat, List.getLastD_concat]
        have hflip := sum_flip_at p i k hip
        rw [beq_eq_false_iff_ne, ne_eq, checksum]
        omega
      · have hieq : i = p.length := by omega
        subst hieq
        have hget : (frame p).getD p.length 0 = checksum p := by
          rw [frame, List.getD_append_right _ _ _ _ (le_refl _), Nat.sub_self,
            List.getD_cons_zero]
        have hset : flipFrameBit (frame p) p.length k
            = p ++ [flipBit (checksum p) k] := by
          rw [flipFrameBit, hget, frame, List.set_append,
            if_neg (lt_irrefl p.length), Nat.sub_self, List.set_cons_zero]
        rw [hset, verifyChecksum, List.dropLast_concat, List.getLastD_concat,
          beq_eq_false_iff_ne, ne_eq]
        by_cases hbit : checksum p / 2 ^ k % 2 = 1
        · have hge := ge_of_bit_set _ k hbit
          rw [flipBit, if_pos hbit]
          rw [checksum] at hge ⊢
          omega
        · rw [flipBit, if_neg hbit, checksum]
          omega
    refine ⟨hver, ?_⟩
    rw [classifyResponse, hver]
    simp

/-- C2 witness: the frame of a concrete payload verifies, and flipping bit 0
of its first byte is detected and classified as a checksum mismatch. -/
theorem frame_checksum_detects_bit_flip_witness :
    verifyChecksum (frame [1, 2]) = true ∧
    (verifyChecksum (flipFrameBit (frame [1, 2]) 0 0) = false ∧
      classifyResponse (flipFrameBit (frame [1, 2]) 0 0) =
        CommResult.ChecksumMismatch) :=
  ⟨(frame_checksum_detects_bit_flip [1, 2]).1,
   (frame_checksum_detects_bit_flip [1, 2]).2 0 0 (by decide) (by decide)⟩

/-- The lifecycle states of a device session (spec §4.3): `Uninitialized`
before a successful open, `Active` between open and close, `Closed` after
close. -/
inductive SessionState
| Uninitialized | Active | Closed
deriving DecidableEq, Repr

/-- The possible outcomes of the transport-level port claim attempted by
`open` (`Init`/`InitByPort` in the header): the claimed port number, no port
found, or the port exists but cannot be opened. -/
inductive OpenOutcome
| ok (port : Nat) | notFound | openFailed
deriving DecidableEq, Repr

/-- The outcome of writing the encoded frame to the transport. -/
inductive WriteOutcome
| ok | failed
deriving DecidableEq, Repr

/-- The outcome of the bounded-timeout read of the response frame. -/
inductive ReadOutcome
| ok (response : List Nat) | timeout | failed
deriving DecidableEq, Repr

/-- Modelled from the spec: the `Init`/`InitByPort` implementation is absent
from the repository; per §4.3, a failed port claim surfaces as `PortNotFound`
or `PortOpenFailed` and a successful one as `Success`. -/
def openResult : OpenOutcome → CommResult
| .ok _ => CommResult.Success
| .notFound => CommResult.PortNotFound
| .openFailed => CommResult.PortOpenFailed

/-- Modelled from the spec: a successful open transitions the session to
`Active`; a failed open leaves the session state unchanged (it stays
`Uninitialized` when called there, §4.3). -/
def openNext (st : SessionState) : OpenOutcome → SessionState
| .ok _ => SessionState.Active
| .notFound => st
| .openFailed => st

/-- Modelled from the spec: the send implementation is absent from the
repository (the header only declares the `SetSegment`-family entry points and
`FAILED_NO_INIT`); per §4.3, send is valid only in `Active` — in any other
state it returns `NotInitialized` — and otherwise the result is determined by
the write outcome, then the read outcome, then the checksum-validated status
byte of the response. -/
def sendResult (st : SessionState) (w : WriteOutcome) (r : ReadOutcome) :
    CommResult :=
  match st with
  | .Active =>
    match w with
    | .failed => CommResult.WriteFailed
    | .ok =>
      match r with
      | .timeout => CommResult.ReadFailed
      | .failed => CommResult.ReadFailed
      | .ok response => classifyResponse response
  | _ => CommResult.NotInitialized

/-- Modelled from the spec: no exchange outcome changes the session state
during send — a timed-out or failed send leaves the session `Active` with an
unknown device state (§5, §7). -/
def sendNext (st : SessionState) (_ : WriteOutcome) (_ : ReadOutcome) :
    SessionState := st

/-- Modelled from the spec: `close` (`Deinit` in the header) releases the
transport and reports `Success` regardless of prior state (§4.3). -/
def closeResult (_ : SessionState) : CommResult := CommResult.Success

/-- Modelled from the spec: `close` transitions to `Closed` regardless of
prior state and is idempotent on an already-closed session (§4.3). -/
def closeNext (_ : SessionState) : SessionState := SessionState.Closed

/-- C3: in any state other than `Active` (i.e. `Uninitialized` or `Closed`),
send returns `NotInitialized`; in particular, after an open that failed with
`PortNotFound` the state is still `Uninitialized` and a subsequent send
returns `NotInitialized`. -/
theorem send_not_active_not_init :
    (∀ st, st ≠ SessionState.Active →
      ∀ w r, sendResult st w r = CommResult.NotInitialized) ∧
    (openResult OpenOutcome.notFound = CommResult.PortNotFound ∧
      openNext SessionState.Uninitialized OpenOutcome.notFound =
        SessionState.Uninitialized ∧
      ∀ w r, sendResult (openNext SessionState.Uninitialized OpenOutcome.notFound)
          w r = CommResult.NotInitialized) := by
  constructor
  · intro st hst w r
    cases st with
    | Active => exact absurd rfl hst
    | Uninitialized => rfl
    | Closed => rfl
  · exact ⟨rfl, rfl, fun w r => rfl⟩

/-- C3 witness: send in the `Closed` state returns `NotInitialized`. -/
theorem send_not_active_not_init_witness :
    sendResult SessionState.Closed WriteOutcome.ok ReadOutcome.timeout =
      CommResult.NotInitialized :=
  send_not_active_not_init.1 SessionState.Closed (by decide)
    WriteOutcome.ok ReadOutcome.timeout

/-- C4: in the `Active` state the result of send is determined by the exchange
outcome — a write failure yields `WriteFailed`, a read timeout or read failure
yields `ReadFailed`, an ACK status in a checksum-valid response yields
`Success`, and a NACK (non-ACK) status in a checksum-valid response yields
`Nacked` — with exactly one `CommResult` tag per call. -/
theorem send_active_classification :
    (∀ r, sendResult SessionState.Active WriteOutcome.failed r =
      CommResult.WriteFailed) ∧
    sendResult SessionState.Active WriteOutcome.ok ReadOutcome.timeout =
      CommResult.ReadFailed ∧
    sendResult SessionState.Active WriteOutcome.ok ReadOutcome.failed =
      CommResult.ReadFailed ∧
    (∀ response, verifyChecksum response = true →
      statusByte response = ackStatus →
      sendResult SessionState.Active WriteOutcome.ok (ReadOutcome.ok response) =
        CommResult.Success) ∧
    (∀ response, verifyChecksum response = true →
      statusByte response ≠ ackStatus →
      sendResult SessionState.Active WriteOutcome.ok (ReadOutcome.ok response) =
        CommResult.Nacked) := by
  refine ⟨fun r => rfl, rfl, rfl, ?_, ?_⟩
  · intro response hv hs
    show classifyResponse response = CommResult.Success
    rw [classifyResponse, hv, if_pos rfl, if_pos hs]
  · intro response hv hs
    show classifyResponse response = CommResult.Nacked
    rw [classifyResponse, hv, if_pos rfl, if_neg hs]

/-- C4 witness: a checksum-valid ACK response yields `Success` and a
checksum-valid non-ACK response yields `Nacked`, at concrete frames. -/
theorem send_active_classification_witness :
    sendResult SessionState.Active WriteOutcome.ok (ReadOutcome.ok [6, 6]) =
      CommResult.Success ∧
    sendResult SessionState.Active WriteOutcome.ok (ReadOutcome.ok [21, 21]) =
      CommResult.Nacked :=
  ⟨send_active_classification.2.2.2.1 [6, 6] (by decide) (by decide),
   send_active_classification.2.2.2.2 [21, 21] (by decide) (by decide)⟩

/-- C6: a failed exchange does not change the session state — an open that
fails with `PortNotFound` or `PortOpenFailed` leaves the session
`Uninitialized`, and a send in `Active` that fails with `WriteFailed` or
`ReadFailed` leaves the session `Active`. -/
theorem failed_exchange_preserves_state :
    (∀ o, (openResult o = CommResult.PortNotFound ∨
        openResult o = CommResult.PortOpenFailed) →
      openNext SessionState.Uninitialized o = SessionState.Uninitialized) ∧
    (∀ w r, (sendResult SessionState.Active w r = CommResult.WriteFailed ∨
        sendResult SessionState.Active w r = CommResult.ReadFailed) →
      sendNext SessionState.Active w r = SessionState.Active) := by
  constructor
  · intro o ho
    cases o with
    | ok port =>
      rcases ho with h | h <;> exact absurd h (by simp [openResult])
    | notFound => rfl
    | openFailed => rfl
  · intro w r _
    rfl

/-- C6 witness: a `PortNotFound` open leaves the session `Uninitialized` and a
`WriteFailed` send leaves it `Active`. -/
theorem failed_exchange_preserves_state_witness :
    openNext SessionState.Uninitialized OpenOutcome.notFound =
      SessionState.Uninitialized ∧
    sendNext SessionState.Active WriteOutcome.failed ReadOutcome.timeout =
      SessionState.Active :=
  ⟨failed_exchange_preserves_state.1 OpenOutcome.notFound (Or.inl (by decide)),
   failed_exchange_preserves_state.2 WriteOutcome.failed ReadOutcome.timeout
      (Or.inl (by decide))⟩

/-- C7: close returns `Success` and leaves the session `Closed` from every
prior state; in particular closing an already-`Closed` session is idempotent
and still returns `Success`. -/
theorem close_idempotent_success :
    ∀ st, closeResult st = CommResult.Success ∧
      closeNext st = SessionState.Closed ∧
      closeResult (closeNext st) = CommResult.Success ∧
      closeNext (closeNext st) = SessionState.Closed :=
  fun _ => ⟨rfl, rfl, rfl, rfl⟩

/-- The result codes of a communication attempt (`enum CommReturnValue` in
the header). -/
inductive CommReturnValue
| SUCCESS | FAILED_PORT_NOT_FOUND | FAILED_PORT_OPEN | FAILED_WRITE
| FAILED_READ | FAILED_CHECKSUM | FAIL_WITH_NACK | FAILED_NO_INIT
deriving DecidableEq, Repr

/-- The integer value each `CommReturnValue` enumerator is assigned in the
header. -/
def CommReturnValue.toInt : CommReturnValue → Int
| .SUCCESS => 0
| .FAILED_PORT_NOT_FOUND => -1
| .FAILED_PORT_OPEN => -2
| .FAILED_WRITE => -3
| .FAILED_READ => -4
| .FAILED_CHECKSUM => -5
| .FAIL_WITH_NACK => -6
| .FAILED_NO_INIT => -7

/-- Modelled from the spec: the `Init`/`InitByPort` implementation is absent
from the repository; per the header's documented return contract, the call
yields the number of the COM port used on success and a `CommReturnValue`
code otherwise. -/
inductive InitResult
| port (n : Nat) | error (e : CommReturnValue)
deriving DecidableEq, Repr

/-- The single `int` actually returned by `Init`/`InitByPort`: the claimed
port number on success, the failure code otherwise. -/
def InitResult.toInt : InitResult → Int
| .port n => n
| .error e => e.toInt

/-- C10: success and failure of the open operation are distinguishable by
sign — a successful `Init` returns the non-negative claimed port number while
every failure code is one of the seven distinct negative values -1 through -7
(with `SUCCESS = 0`), so no failure code can be confused with a valid port
number. -/
theorem init_codes_sign_distinguishable :
    CommReturnValue.toInt .SUCCESS = 0 ∧
    CommReturnValue.toInt .FAILED_PORT_NOT_FOUND = -1 ∧
    CommReturnValue.toInt .FAILED_PORT_OPEN = -2 ∧
    CommReturnValue.toInt .FAILED_WRITE = -3 ∧
    CommReturnValue.toInt .FAILED_READ = -4 ∧
    CommReturnValue.toInt .FAILED_CHECKSUM = -5 ∧
    CommReturnValue.toInt .FAIL_WITH_NACK = -6 ∧
    CommReturnValue.toInt .FAILED_NO_INIT = -7 ∧
    (∀ e e' : CommReturnValue, e.toInt = e'.toInt → e = e') ∧
    (∀ n : Nat, 0 ≤ InitResult.toInt (.port n)) ∧
    (∀ e : CommReturnValue, e ≠ .SUCCESS →
      e.toInt < 0 ∧ -7 ≤ e.toInt ∧
      ∀ n : Nat, InitResult.toInt (.port n) ≠ InitResult.toInt (.error e)) := by
  refine ⟨rfl, rfl, rfl, rfl, rfl, rfl, rfl, rfl, ?_, ?_, ?_⟩
  · intro e e' h
    cases e <;> cases e' <;> first
    | rfl
    | exact absurd h (by decide)
  · intro n
    exact Int.natCast_nonneg n
  · intro e he
    refine ⟨?_, ?_, ?_⟩ <;> cases e <;>
      first
      | exact absurd rfl he
      | decide
      | intro n
        simp only [InitResult.toInt, CommReturnValue.toInt]
        omega

/-- C10 witness: port 6 is non-negative and distinct from the
`FAILED_NO_INIT` code. -/
theorem init_codes_sign_distinguishable_witness :
    InitResult.toInt (.port 6) ≠
      InitResult.toInt (.error CommReturnValue.FAILED_NO_INIT) :=
  (init_codes_sign_distinguishable.2.2.2.2.2.2.2.2.2.2
    CommReturnValue.FAILED_NO_INIT (by decide)).2.2 6

end TL50
